import Mathlib

/-!
Verification of the job-processing pipeline of the elasticdocument repository.

The code under scrutiny is the SSE route handler
`src/app/api/result/[id]/route.ts` (the GET function), together with the
`processed_result` row it manipulates (schema in `src/lib/db/schema.ts` and
`drizzle/0000_lazy_dreadnoughts.sql`).  The handler is embedded shallowly:

* the `processed_result` row becomes the structure `Row`;
* each SQL update the handler issues becomes a `DbWrite` value, applied to a
  row by `applyW` (conditional `where` clauses become guards in `applyW`);
* the handler's externally visible behaviour (emitted SSE events, collaborator
  calls, database writes, in the order they happen) becomes a list of `Act`;
* the OCR / URL-scraping / generation collaborators are opaque services in the
  source (`runOcr`, `scrapeUrl`, `streamFormattedSummary`,
  `streamBreadtextSummary`) and are supplied as oracles: a function from the
  call argument to a result-or-error for OCR and scraping, and a `GenOutcome`
  (chunks yielded before an optional exception) for each generation producer.

Concurrency: every database mutation in the source is a single atomic
conditional update on one row, so any interleaving of handlers serialises at
the database; races are modelled by letting the row state seen by the claim
update (`db0`) differ from the snapshot the handler read earlier (`result`).
-/

namespace ElasticDocument

/-- The fields of one `processed_result` row that the route handler reads or
writes.  All text columns are `NOT NULL` with default `''` in the schema, so
they are plain strings here; `""` plays the role of SQL's falsy empty string. -/
structure Row where
  markdownContent : String
  extractedImages : List String
  outputContent : String
  outputBreadtext : String
  outputImages : List String
  deriving Repr, DecidableEq

/-- `route.ts` line 73: the reserved marker stored in `markdownContent` while a
worker is extracting. -/
def PROCESSING_SENTINEL : String := "__processing__"

/-- `route.ts` lines 74-83: the claim is the conditional update
`set markdownContent = sentinel where id = .. and markdownContent = ''`.
Given the current value of the `markdownContent` field it returns the new
value and whether a row was affected (`true` = affected count 1,
`false` = affected count 0). -/
def tryClaim (md : String) : String × Bool :=
  if md = "" then (PROCESSING_SENTINEL, true) else (md, false)

/-- N workers racing to claim the same job: the database serialises the N
atomic conditional updates in some order; because every worker runs the same
update, any serialisation order is this fold.  Returns the final field value
and each worker's affected-row outcome in serialisation order. -/
def runClaims : Nat → String → String × List Bool
  | 0, md => (md, [])
  | n + 1, md =>
    let first := tryClaim md
    let rest := runClaims n first.1
    (rest.1, first.2 :: rest.2)

/-- The character class of JavaScript's `\s` (and of `String.prototype.trim`),
restricted to the code points that can occur here: space, tab, line feed,
carriage return, vertical tab, form feed, no-break space, BOM and the two
Unicode line separators. -/
def isJsSpace (c : Char) : Bool :=
  c = ' ' || c = '\t' || c = '\n' || c = '\r' || c = '\x0b' || c = '\x0c' ||
  c = ' ' || c = '﻿' || c = ' ' || c = ' '

/-- JavaScript `String.prototype.trim`: drop whitespace from both ends. -/
def jsTrim (s : String) : String :=
  ⟨((s.data.dropWhile isJsSpace).reverse.dropWhile isJsSpace).reverse⟩

/-- JavaScript `String.prototype.includes`: `pat` occurs contiguously in `s`
(the empty pattern occurs in every string). -/
def strIncludes (s pat : String) : Bool :=
  (List.range (s.data.length + 1)).any fun i => pat.data.isPrefixOf (s.data.drop i)

/-- A character matched by `.` in a JavaScript regex without the `s` flag:
anything except a line terminator. -/
def isDotChar (c : Char) : Bool :=
  !(c = '\n' || c = '\r' || c = ' ' || c = ' ')

/-- Length of the leading run of `\s` characters. -/
def spaceRun (l : List Char) : Nat := (l.takeWhile isJsSpace).length

/-- Backtracking match of the tail `\s*.+?\s*---` of the separator regex

`/---\s*.+?\s*---/` (`route.ts` line 196) against a prefix of `l` (the text
just after a literal `---`).  Returns the number of characters consumed.
Choice order follows the regex engine: the first `\s*` is greedy (longest
first), `.+?` is lazy (shortest first), the second `\s*` is greedy. -/
def matchSepTail (l : List Char) : Option Nat :=
  ((List.range (spaceRun l + 1)).reverse).findSome? fun w1 =>
    let l1 := l.drop w1
    (List.range l1.length).findSome? fun m0 =>
      let m := m0 + 1
      if (l1.take m).all isDotChar then
        let l2 := l1.drop m
        ((List.range (spaceRun l2 + 1)).reverse).findSome? fun w2 =>
          if [ '-', '-', '-' ].isPrefixOf (l2.drop w2) then
            some (w1 + m + w2 + 3)
          else none
      else none

/-- One pass of the global replacement `replace(/---\s*.+?\s*---/g, "")`:
scan left to right, delete each non-overlapping match, continue after it.
`fuel` is an upper bound on the number of characters left (each step consumes
at least one character). -/
def replaceSepsAux : Nat → List Char → List Char
  | 0, l => l
  | _ + 1, [] => []
  | fuel + 1, c :: rest =>
    if [ '-', '-', '-' ].isPrefixOf (c :: rest) then
      match matchSepTail ((c :: rest).drop 3) with
      | some k => replaceSepsAux fuel ((c :: rest).drop (3 + k))
      | none => c :: replaceSepsAux fuel rest
    else c :: replaceSepsAux fuel rest

/-- `route.ts` line 196: strip every document-separator match from the
combined markdown. -/
def stripSeps (s : String) : String := ⟨replaceSepsAux s.data.length s.data⟩

/-- One source document as the handler sees it (a `document` row).  `blobUrl`
and `sourceUrl` keep only their truthiness-relevant content: the schema allows
`sourceUrl` to be NULL, which JavaScript treats exactly like `""` in the
`if (doc.sourceUrl)` test, so both are plain strings with `""` for absent. -/
structure Doc where
  id : String
  fileName : String
  blobUrl : String
  isUrl : Bool
  sourceUrl : String
  deriving Repr, DecidableEq

/-- Result of the `scrapeUrl` collaborator (`src/lib/url-scraper.ts`). -/
structure Scraped where
  blobUrl : String
  fileName : String
  markdown : String
  deriving Repr, DecidableEq

/-- Result of the `runOcr` collaborator (`src/lib/ocr.ts`). -/
structure OcrOut where
  markdown : String
  images : List String
  deriving Repr, DecidableEq

/-- The extraction collaborators, as oracles from call argument to outcome
(`Except` carries the thrown error's message). -/
structure Oracle where
  scrape : String → Except String Scraped
  ocr : String → Except String OcrOut

/-- One generation producer run (`streamFormattedSummary` or
`streamBreadtextSummary`): the chunks it yielded, whether it then threw
instead of finishing, and the message of the thrown error. -/
structure GenOutcome where
  chunks : List String
  failed : Bool
  errMsg : String
  deriving Repr, DecidableEq

/-- The SSE events of §6 of the spec, one constructor per `type` tag the
route serialises. -/
inductive Ev where
  | statusEv (msg : String)
  | contentEv (text : String)
  | breadtextEv (text : String)
  | imagesEv (imgs : List String)
  | errorEv (msg : String)
  | doneEv
  | formattedChunk (text : String)
  | breadtextChunk (text : String)
  | formattedDoneEv
  | breadtextDoneEv
  deriving Repr, DecidableEq

/-- The SQL updates the handler can issue against its `processed_result` row.
Each corresponds to one `db.update(processedResult)` call site in `route.ts`:
`claimW` lines 74-83, `resetPlain` lines 199-202 and 313-316 (both are
unconditional: their `where` clause names only the row id), `persistExtract`
lines 212-218, `persistOutputs` lines 334-341, `resetGuarded` lines 349-357
(the catch-block release, whose `where` clause also requires the field to
still hold the sentinel). -/
inductive DbWrite where
  | claimW
  | resetPlain
  | persistExtract (md : String) (imgs : List String)
  | persistOutputs (oc ob : String) (oi : List String)
  | resetGuarded
  deriving Repr, DecidableEq

/-- Apply one update to a row; conditional `where` clauses become guards. -/
def applyW (w : DbWrite) (r : Row) : Row :=
  match w with
  | .claimW =>
    if r.markdownContent = "" then { r with markdownContent := PROCESSING_SENTINEL } else r
  | .resetPlain => { r with markdownContent := "" }
  | .persistExtract md imgs => { r with markdownContent := md, extractedImages := imgs }
  | .persistOutputs oc ob oi =>
    { r with outputContent := oc, outputBreadtext := ob, outputImages := oi }
  | .resetGuarded =>
    if r.markdownContent = PROCESSING_SENTINEL then { r with markdownContent := "" } else r

/-- Everything externally observable the handler does, in order: emit an SSE
event, call a collaborator, update its `processed_result` row, or update a
`document` row (the scrape loop's `db.update(document)`). -/
inductive Act where
  | emit (e : Ev)
  | scrapeCall (url : String)
  | ocrCall (blobUrl : String)
  | dbw (w : DbWrite)
  | docUpdate (docId : String)
  deriving Repr, DecidableEq

/-- Effect of one act on the `processed_result` row: only `dbw` changes it. -/
def actApply (r : Row) (a : Act) : Row :=
  match a with
  | .dbw w => applyW w r
  | _ => r

/-- Replay a trace's row updates over a starting row. -/
def applyActs (acts : List Act) (r : Row) : Row :=
  acts.foldl actApply r

/-- The events of a trace, in emission order. -/
def actEvents (acts : List Act) : List Ev :=
  acts.filterMap fun a => match a with | .emit e => some e | _ => none

/-- The OCR and scrape collaborator calls of a trace. -/
def collabCalls (acts : List Act) : List Act :=
  acts.filter fun a =>
    match a with | .scrapeCall _ => true | .ocrCall _ => true | _ => false

/-- `route.ts` lines 179 and 188: each source's contribution to the combined
markdown, prefixed by its display-name separator. -/
def sep (name md : String) : String := "\n\n--- " ++ name ++ " ---\n\n" ++ md

/-- `route.ts` lines 147-162: the body of the scrape loop for one URL
document.  Returns the acts performed and the `(doc.id, markdown)` entries
added to `scrapedMarkdowns`; a scrape failure is caught and surfaced as an
error event. -/
def scrapeStep (orc : Oracle) (d : Doc) : List Act × List (String × String) :=
  if d.sourceUrl ≠ "" then
    match orc.scrape d.sourceUrl with
    | .ok s => ([.scrapeCall d.sourceUrl, .docUpdate d.id], [(d.id, s.markdown)])
    | .error e =>
      ([.scrapeCall d.sourceUrl,
        .emit (.errorEv ("Failed to fetch " ++ d.sourceUrl ++ ": " ++ e))], [])
  else ([], [])

/-- `route.ts` lines 142-163: scrape every URL document; the status event is
only sent when at least one URL document exists. -/
def scrapePhase (orc : Oracle) (docs : List Doc) : List Act × List (String × String) :=
  let urlDocs := docs.filter (fun d => d.isUrl)
  if urlDocs.isEmpty then ([], [])
  else
    let core := urlDocs.foldl
      (fun acc d =>
        let r := scrapeStep orc d
        (acc.1 ++ r.1, acc.2 ++ r.2))
      ([], [])
    (Act.emit (.statusEv "Fetching web pages...") :: core.1, core.2)

/-- `route.ts` lines 172-193: the body of the extraction loop for one
document.  URL documents reuse the scraped markdown (skipped when absent or
empty, matching the `if (md)` truthiness test); file documents without a blob
URL are skipped; OCR failures are caught, reported and skipped. -/
def extractStep (orc : Oracle) (smap : List (String × String))
    (acc : List Act × String × List String) (d : Doc) : List Act × String × List String :=
  if d.isUrl then
    match List.lookup d.id smap with
    | some md => if md ≠ "" then (acc.1, acc.2.1 ++ sep d.fileName md, acc.2.2) else acc
    | none => acc
  else if d.blobUrl = "" then acc
  else
    match orc.ocr d.blobUrl with
    | .ok o =>
      (acc.1 ++ [.ocrCall d.blobUrl], acc.2.1 ++ sep d.fileName o.markdown, acc.2.2 ++ o.images)
    | .error e =>
      (acc.1 ++ [.ocrCall d.blobUrl,
        .emit (.errorEv ("OCR failed for " ++ d.fileName ++ ": " ++ e))], acc.2)

/-- `route.ts` lines 169-193: the extraction loop, starting from the freshly
reset `combinedMarkdown = ""` and `allImages = []`. -/
def extractLoop (orc : Oracle) (smap : List (String × String)) (docs : List Doc) :
    List Act × String × List String :=
  docs.foldl (extractStep orc smap) ([], "", [])

/-- The canned-response marker tested at `route.ts` lines 311 and 326. -/
def cannedPhrase : String := "appears to be empty or could not be read"

/-- Left fold concatenation, as the `+=` accumulation in the producers. -/
def concatAll (l : List String) : String := l.foldl (fun a b => a ++ b) ""

/-- `route.ts` lines 247-260: the events the formatted producer pushes, in its
own order: one `formatted_chunk` per yielded chunk, then (only if the
producer threw) a caught-error event, then `formatted_done`. -/
def fmtEvents (g : GenOutcome) : List Ev :=
  g.chunks.map Ev.formattedChunk ++
    (if g.failed then [Ev.errorEv ("Summarization failed: " ++ g.errMsg)] else []) ++
    [Ev.formattedDoneEv]

/-- `route.ts` lines 262-275: the events the breadtext producer pushes: one
`breadtext_chunk` per yielded chunk then `breadtext_done`; its exception is
swallowed without an event. -/
def btEvents (g : GenOutcome) : List Ev :=
  g.chunks.map Ev.breadtextChunk ++ [Ev.breadtextDoneEv]

/-- An interleaving of two streams chosen by a boolean schedule (`true` takes
from the first): the order in which the drain loop forwards the two
producers' pushed events for one particular timing. -/
def mergeBy : List Bool → List Ev → List Ev → List Ev
  | _, [], b => b
  | _, a, [] => a
  | [], a, b => a ++ b
  | true :: s, x :: a, b => x :: mergeBy s a b
  | false :: s, a, y :: b => y :: mergeBy s a b

/-- `route.ts` lines 223-343, the generation stage: status event, the merged
producer events, then the post-merge validation and persistence.  `cm` and
`imgs` are the extracted text and images fed to both producers. -/
def genPhase (sched : List Bool) (fmt bt : GenOutcome) (cm : String) (imgs : List String) :
    List Act :=
  let base := Act.emit (.statusEv "Summarizing and restructuring...") ::
    (mergeBy sched (fmtEvents fmt) (btEvents bt)).map Act.emit
  let fc := jsTrim (concatAll fmt.chunks)
  let btx := jsTrim (concatAll bt.chunks)
  if fc = "" then
    base ++ [.emit (.errorEv "Failed to generate summary. Please try again."), .emit .doneEv]
  else if strIncludes fc cannedPhrase then
    base ++ [.dbw .resetPlain, .emit (.errorEv fc), .emit .doneEv]
  else
    let btx2 := if strIncludes btx cannedPhrase then "" else btx
    let used := imgs.filter (fun i => strIncludes fc i || strIncludes btx2 i)
    base ++ [.dbw (.persistOutputs fc btx2 used), .emit .doneEv]

/-- `route.ts` lines 132-343, the processing path reached after the claim
update: resume from stored markdown when present (sentinel mapped back to
empty, line 137), otherwise scrape, extract, reject empty extractions
(lines 196-209), persist the extraction (lines 212-218), then generate. -/
def processPhase (orc : Oracle) (sched : List Bool) (fmt bt : GenOutcome)
    (docs : List Doc) (result : Row) : List Act :=
  let cm0 := if result.markdownContent = PROCESSING_SENTINEL then "" else result.markdownContent
  if cm0 = "" then
    let scr := scrapePhase orc docs
    let ext := extractLoop orc scr.2 docs
    let pre := scr.1 ++ Act.emit (.statusEv "Extracting text and images...") :: ext.1
    if jsTrim (stripSeps ext.2.1) = "" then
      pre ++ [.dbw .resetPlain,
        .emit (.errorEv "No content could be extracted from the documents. The file may be empty or unreadable."),
        .emit .doneEv]
    else
      pre ++ .dbw (.persistExtract ext.2.1 ext.2.2) :: genPhase sched fmt bt ext.2.1 ext.2.2
  else
    genPhase sched fmt bt cm0 result.extractedImages

/-- The whole GET handler after authentication and row lookup (`route.ts`
lines 38-343), as the trace of acts it performs.  `result` is the snapshot the
handler read at line 27; `db0.markdownContent` is the value the claim update
actually sees, which a concurrent handler may have changed since the read
(sequential executions take `db0 = result`).  Branches in order: replay of a
finished job (line 39), the already-processing short circuit (line 87), the
processing path. -/
def routeActs (orc : Oracle) (sched : List Bool) (fmt bt : GenOutcome)
    (docs : List Doc) (result db0 : Row) : List Act :=
  if result.outputContent ≠ "" then
    [.emit (.statusEv "Complete"),
     .emit (.contentEv result.outputContent),
     .emit (.breadtextEv result.outputBreadtext),
     .emit (.imagesEv result.outputImages),
     .emit .doneEv]
  else if db0.markdownContent ≠ "" ∧ result.markdownContent = "" then
    [.dbw .claimW,
     .emit (.statusEv "Already processing in another request. Please wait..."),
     .emit .doneEv]
  else
    .dbw .claimW :: processPhase orc sched fmt bt docs result

/-- The row the handler's run leaves behind: its trace's writes applied to the
row state the claim update saw. -/
def routeFinal (orc : Oracle) (sched : List Bool) (fmt bt : GenOutcome)
    (docs : List Doc) (result db0 : Row) : Row :=
  applyActs (routeActs orc sched fmt bt docs result db0) db0

/-- State of the fan-in of `route.ts` lines 234-291: the events each producer
has yet to push (each producer pushes its own events strictly in order), the
shared append-only `pending` buffer, and the events the drain loop has
forwarded so far (`sent`), in forwarding order. -/
structure FanState where
  p1 : List Ev
  p2 : List Ev
  pending : List Ev
  sent : List Ev
  deriving Repr, DecidableEq

/-- One atomic step of the fan-in: the formatted producer pushes its next
event (`push` appends to `pending`), the breadtext producer pushes its next
event, or the consumer drains the whole buffer in FIFO order (the inner
`while (pending.length > 0) send(pending.shift())` loop). -/
inductive FanStep where
  | pushF
  | pushB
  | drain
  deriving Repr, DecidableEq

/-- Transition function of the fan-in. -/
def fanStep (s : FanState) : FanStep → FanState
  | .pushF =>
    match s.p1 with
    | [] => s
    | e :: rest => { s with p1 := rest, pending := s.pending ++ [e] }
  | .pushB =>
    match s.p2 with
    | [] => s
    | e :: rest => { s with p2 := rest, pending := s.pending ++ [e] }
  | .drain => { s with pending := [], sent := s.sent ++ s.pending }

/-- Run a schedule of interleaved steps. -/
def fanRun (s : FanState) (sched : List FanStep) : FanState :=
  sched.foldl fanStep s

/-- Initial fan-in state for two successful producers with the given chunk
sequences (their event queues come from the producer bodies). -/
def fanInit (c1 c2 : List String) : FanState :=
  ⟨fmtEvents ⟨c1, false, ""⟩, btEvents ⟨c2, false, ""⟩, [], []⟩

/-- Payload of a `formatted_chunk` event. -/
def fmtPayload : Ev → Option String
  | .formattedChunk t => some t
  | _ => none

/-- Payload of a `breadtext_chunk` event. -/
def btPayload : Ev → Option String
  | .breadtextChunk t => some t
  | _ => none

/-- The stream-1 projection that each fan-in step preserves: forwarded events,
then buffered events, then events producer 1 has yet to push. -/
def tot1 (f : Ev → Option String) (s : FanState) : List String :=
  s.sent.filterMap f ++ s.pending.filterMap f ++ s.p1.filterMap f

/-- The symmetric projection for producer 2. -/
def tot2 (f : Ev → Option String) (s : FanState) : List String :=
  s.sent.filterMap f ++ s.pending.filterMap f ++ s.p2.filterMap f

/-- An act that does not update the `processed_result` row. -/
def isPassive (a : Act) : Bool :=
  match a with
  | .dbw _ => false
  | _ => true

/-- The combined markdown accumulated by the extraction loop is empty or
starts with the newline every separator begins with; in particular a
non-empty extraction result can never equal the sentinel string. -/
def headOk (cm : String) : Prop := cm = "" ∨ cm.data.head? = some '\n'

/-- Concrete fixtures for witnesses and counterexamples. -/
def noOracle : Oracle := ⟨fun _ => .error "service down", fun _ => .error "service down"⟩

def okOracle : Oracle :=
  ⟨fun _ => .ok ⟨"blob://s", "page.html", "scraped"⟩, fun _ => .ok ⟨"text", ["img1"]⟩⟩

def fileDoc : Doc := ⟨"d1", "f.pdf", "blob://1", false, ""⟩

def urlDoc : Doc := ⟨"d2", "site_html", "", true, "https://ex.com"⟩

def genOk : GenOutcome := ⟨["world"], false, ""⟩

def genNone : GenOutcome := ⟨[], false, ""⟩

def genFailEarly : GenOutcome := ⟨[], true, "boom"⟩

def genFailLate : GenOutcome := ⟨["hello"], true, "boom"⟩

def genCanned : GenOutcome := ⟨[cannedPhrase], false, ""⟩

def rowFresh : Row := ⟨"", [], "", "", []⟩

def rowSentinel : Row := ⟨PROCESSING_SENTINEL, [], "", "", []⟩

def rowResume : Row := ⟨"DOC", [], "", "", []⟩

def rowDone : Row := ⟨"md", [], "OUT", "BT", ["i"]⟩

/-- The transition property C9 keeps after correction: a row update writes the
sentinel into `markdownContent` only over an empty or already-sentinel
value. -/
def mdSafe (w : DbWrite) : Prop :=
  ∀ r : Row, (applyW w r).markdownContent = PROCESSING_SENTINEL →
    r.markdownContent = "" ∨ r.markdownContent = PROCESSING_SENTINEL

theorem tryClaim_empty : tryClaim "" = (PROCESSING_SENTINEL, true) := by
  simp [tryClaim]

theorem tryClaim_nonempty (md : String) (h : md ≠ "") : tryClaim md = (md, false) := by
  simp [tryClaim, h]

theorem sentinel_ne_empty : PROCESSING_SENTINEL ≠ "" := by
  decide

theorem runClaims_nonempty (n : Nat) (md : String) (h : md ≠ "") :
    runClaims n md = (md, List.replicate n false) := by
  induction n with
  | zero => simp [runClaims]
  | succ k ih =>
    simp only [runClaims, tryClaim, if_neg h, ih, List.replicate]

theorem runClaims_fresh (n : Nat) :
    runClaims (n + 1) "" = (PROCESSING_SENTINEL, true :: List.replicate n false) := by
  simp only [runClaims, tryClaim_empty,
    runClaims_nonempty n PROCESSING_SENTINEL sentinel_ne_empty]

theorem fanStep_p2_sub (s : FanState) (st : FanStep) :
    ∀ e ∈ (fanStep s st).p2, e ∈ s.p2 := by
  intro e he
  cases st with
  | pushF => cases h : s.p1 <;> simp_all [fanStep]
  | pushB =>
    cases h : s.p2 with
    | nil => simp_all [fanStep]
    | cons x rest => rw [fanStep, h] at he; simp_all
  | drain => simp_all [fanStep]

theorem fanStep_p1_sub (s : FanState) (st : FanStep) :
    ∀ e ∈ (fanStep s st).p1, e ∈ s.p1 := by
  intro e he
  cases st with
  | pushB => cases h : s.p2 <;> simp_all [fanStep]
  | pushF =>
    cases h : s.p1 with
    | nil => simp_all [fanStep]
    | cons x rest => rw [fanStep, h] at he; simp_all
  | drain => simp_all [fanStep]

theorem fanStep_tot1 (f : Ev → Option String) (s : FanState) (st : FanStep)
    (h : ∀ e ∈ s.p2, f e = none) : tot1 f (fanStep s st) = tot1 f s := by
  cases st with
  | pushF =>
    cases hp : s.p1 with
    | nil => rw [fanStep, hp]
    | cons x rest =>
      rw [fanStep, hp]
      simp only [tot1, hp, List.filterMap_append]
      cases hfx : f x <;> simp [List.filterMap_cons, hfx]
  | pushB =>
    cases hp : s.p2 with
    | nil => rw [fanStep, hp]
    | cons x rest =>
      rw [fanStep, hp]
      have hx : f x = none := h x (by simp [hp])
      simp [tot1, hx]
  | drain => simp [fanStep, tot1]

theorem fanStep_tot2 (f : Ev → Option String) (s : FanState) (st : FanStep)
    (h : ∀ e ∈ s.p1, f e = none) : tot2 f (fanStep s st) = tot2 f s := by
  cases st with
  | pushB =>
    cases hp : s.p2 with
    | nil => rw [fanStep, hp]
    | cons x rest =>
      rw [fanStep, hp]
      simp only [tot2, hp, List.filterMap_append]
      cases hfx : f x <;> simp [List.filterMap_cons, hfx]
  | pushF =>
    cases hp : s.p1 with
    | nil => rw [fanStep, hp]
    | cons x rest =>
      rw [fanStep, hp]
      have hx : f x = none := h x (by simp [hp])
      simp [tot2, hx]
  | drain => simp [fanStep, tot2]

theorem fanRun_tot1 (f : Ev → Option String) (sched : List FanStep) (s : FanState)
    (h : ∀ e ∈ s.p2, f e = none) :
    tot1 f (fanRun s sched) = tot1 f s ∧ (∀ e ∈ (fanRun s sched).p2, f e = none) := by
  induction sched generalizing s with
  | nil => exact ⟨rfl, h⟩
  | cons st rest ih =>
    have h' : ∀ e ∈ (fanStep s st).p2, f e = none :=
      fun e he => h e (fanStep_p2_sub s st e he)
    have := ih (fanStep s st) h'
    exact ⟨by rw [fanRun, List.foldl_cons, ← fanRun, this.1, fanStep_tot1 f s st h], this.2⟩

theorem fanRun_tot2 (f : Ev → Option String) (sched : List FanStep) (s : FanState)
    (h : ∀ e ∈ s.p1, f e = none) :
    tot2 f (fanRun s sched) = tot2 f s ∧ (∀ e ∈ (fanRun s sched).p1, f e = none) := by
  induction sched generalizing s with
  | nil => exact ⟨rfl, h⟩
  | cons st rest ih =>
    have h' : ∀ e ∈ (fanStep s st).p1, f e = none :=
      fun e he => h e (fanStep_p1_sub s st e he)
    have := ih (fanStep s st) h'
    exact ⟨by rw [fanRun, List.foldl_cons, ← fanRun, this.1, fanStep_tot2 f s st h], this.2⟩

theorem fmtPayload_fmtEvents (g : GenOutcome) :
    (fmtEvents g).filterMap fmtPayload = g.chunks := by
  cases hf : g.failed <;>
    simp [fmtEvents, hf, List.filterMap_append, List.filterMap_map, fmtPayload,
      Function.comp_def]

theorem btPayload_btEvents (g : GenOutcome) :
    (btEvents g).filterMap btPayload = g.chunks := by
  simp [btEvents, List.filterMap_append, List.filterMap_map, btPayload, Function.comp_def]

theorem fmtPayload_btEvents (g : GenOutcome) :
    ∀ e ∈ btEvents g, fmtPayload e = none := by
  intro e he
  simp only [btEvents, List.mem_append, List.mem_map, List.mem_singleton] at he
  rcases he with ⟨t, _, rfl⟩ | rfl <;> rfl

theorem btPayload_fmtEvents (g : GenOutcome) :
    ∀ e ∈ fmtEvents g, btPayload e = none := by
  intro e he
  simp only [fmtEvents, List.mem_append, List.mem_map, List.mem_singleton] at he
  rcases he with (⟨t, _, rfl⟩ | he) | rfl
  · rfl
  · cases hf : g.failed <;> rw [hf] at he <;> simp at he
    cases he; rfl
  · rfl

/-- C4: for every schedule of the two-producer fan-in under which both
producers have pushed all their events, the final buffer flush leaves nothing
buffered, and the `formatted_chunk` payloads in forwarding order are exactly
the formatted producer's chunk sequence (no gaps, drops or reordering), and
symmetrically for `breadtext_chunk`. -/
theorem claim4_fanin_order (c1 c2 : List String) (sched : List FanStep)
    (h1 : (fanRun (fanInit c1 c2) sched).p1 = [])
    (h2 : (fanRun (fanInit c1 c2) sched).p2 = []) :
    (fanStep (fanRun (fanInit c1 c2) sched) .drain).pending = [] ∧
    (fanStep (fanRun (fanInit c1 c2) sched) .drain).sent.filterMap fmtPayload = c1 ∧
    (fanStep (fanRun (fanInit c1 c2) sched) .drain).sent.filterMap btPayload = c2 := by
  have hf := fanRun_tot1 fmtPayload sched (fanInit c1 c2)
    (fmtPayload_btEvents ⟨c2, false, ""⟩)
  have hb := fanRun_tot2 btPayload sched (fanInit c1 c2)
    (btPayload_fmtEvents ⟨c1, false, ""⟩)
  have hinit1 : tot1 fmtPayload (fanInit c1 c2) = c1 := by
    simp [tot1, fanInit, fmtPayload_fmtEvents, fmtPayload_btEvents]
  have hinit2 : tot2 btPayload (fanInit c1 c2) = c2 := by
    simp [tot2, fanInit, btPayload_btEvents, btPayload_fmtEvents]
  refine ⟨rfl, ?_, ?_⟩
  · have e1 : tot1 fmtPayload (fanRun (fanInit c1 c2) sched) = c1 := by rw [hf.1, hinit1]
    unfold tot1 at e1
    rw [h1] at e1
    simpa [fanStep, List.filterMap_append] using e1
  · have e2 : tot2 btPayload (fanRun (fanInit c1 c2) sched) = c2 := by rw [hb.1, hinit2]
    unfold tot2 at e2
    rw [h2] at e2
    simpa [fanStep, List.filterMap_append] using e2

theorem claim4_witness :
    ((fanRun (fanInit ["a", "b"] ["x"]) [.pushF, .pushB, .drain, .pushF, .pushF, .pushB, .drain]).p1 = []) ∧
    ((fanRun (fanInit ["a", "b"] ["x"]) [.pushF, .pushB, .drain, .pushF, .pushF, .pushB, .drain]).p2 = []) ∧
    ((fanStep (fanRun (fanInit ["a", "b"] ["x"]) [.pushF, .pushB, .drain, .pushF, .pushF, .pushB, .drain]) .drain).pending = [] ∧
     (fanStep (fanRun (fanInit ["a", "b"] ["x"]) [.pushF, .pushB, .drain, .pushF, .pushF, .pushB, .drain]) .drain).sent.filterMap fmtPayload = ["a", "b"] ∧
     (fanStep (fanRun (fanInit ["a", "b"] ["x"]) [.pushF, .pushB, .drain, .pushF, .pushF, .pushB, .drain]) .drain).sent.filterMap btPayload = ["x"]) :=
  ⟨by decide, by decide,
   claim4_fanin_order ["a", "b"] ["x"] [.pushF, .pushB, .drain, .pushF, .pushF, .pushB, .drain]
     (by decide) (by decide)⟩

/-! Helper lemmas about traces: appending, passive acts (anything that is not
a row update), events and collaborator calls. -/

theorem applyActs_append (a b : List Act) (r : Row) :
    applyActs (a ++ b) r = applyActs b (applyActs a r) := by
  simp [applyActs, List.foldl_append]

theorem applyActs_cons (a : Act) (l : List Act) (r : Row) :
    applyActs (a :: l) r = applyActs l (actApply r a) := rfl

theorem actApply_passive (a : Act) (r : Row) (h : isPassive a = true) :
    actApply r a = r := by
  cases a <;> simp_all [actApply, isPassive]

theorem applyActs_passive (l : List Act) (r : Row) (h : ∀ a ∈ l, isPassive a = true) :
    applyActs l r = r := by
  induction l generalizing r with
  | nil => rfl
  | cons a rest ih =>
    rw [applyActs_cons, actApply_passive a r (h a (by simp))]
    exact ih r fun x hx => h x (by simp [hx])

theorem actEvents_append (a b : List Act) :
    actEvents (a ++ b) = actEvents a ++ actEvents b := by
  simp [actEvents, List.filterMap_append]

theorem actEvents_map_emit (evs : List Ev) :
    actEvents (evs.map Act.emit) = evs := by
  simp [actEvents, List.filterMap_map, Function.comp_def]

theorem collabCalls_append (a b : List Act) :
    collabCalls (a ++ b) = collabCalls a ++ collabCalls b := by
  simp [collabCalls, List.filter_append]

theorem collabCalls_map_emit (evs : List Ev) :
    collabCalls (evs.map Act.emit) = [] := by
  simp [collabCalls, List.filter_map, Function.comp_def]

theorem passive_map_emit (evs : List Ev) : ∀ a ∈ evs.map Act.emit, isPassive a = true := by
  intro a ha
  rcases List.mem_map.mp ha with ⟨e, _, rfl⟩
  rfl

/-! Structure of the scrape and extraction phases: they never update the
`processed_result` row, and the extraction phase's combined markdown is either
empty or starts with the separator's newline. -/

theorem scrapeStep_acts (orc : Oracle) (d : Doc) :
    ∀ a ∈ (scrapeStep orc d).1, isPassive a = true ∧ ∀ u, a ≠ Act.ocrCall u := by
  intro a ha
  unfold scrapeStep at ha
  by_cases hs : d.sourceUrl ≠ ""
  · rw [if_pos hs] at ha
    cases horc : orc.scrape d.sourceUrl <;> rw [horc] at ha <;> simp at ha <;>
      rcases ha with rfl | rfl <;> exact ⟨rfl, fun u h => Act.noConfusion h⟩
  · rw [if_neg hs] at ha
    simp at ha

theorem scrapePhase_core (orc : Oracle) (l : List Doc)
    (acc : List Act × List (String × String))
    (hacc : ∀ a ∈ acc.1, isPassive a = true ∧ ∀ u, a ≠ Act.ocrCall u) :
    ∀ a ∈ (l.foldl (fun acc d =>
        let r := scrapeStep orc d
        (acc.1 ++ r.1, acc.2 ++ r.2)) acc).1,
      isPassive a = true ∧ ∀ u, a ≠ Act.ocrCall u := by
  induction l generalizing acc with
  | nil => exact hacc
  | cons d rest ih =>
    refine ih _ ?_
    intro a ha
    rcases List.mem_append.mp ha with h | h
    · exact hacc a h
    · exact scrapeStep_acts orc d a h

theorem scrapePhase_acts (orc : Oracle) (docs : List Doc) :
    ∀ a ∈ (scrapePhase orc docs).1, isPassive a = true ∧ ∀ u, a ≠ Act.ocrCall u := by
  intro a ha
  unfold scrapePhase at ha
  by_cases he : (docs.filter (fun d => d.isUrl)).isEmpty
  · rw [if_pos he] at ha; simp at ha
  · rw [if_neg he] at ha
    rcases List.mem_cons.mp ha with rfl | h
    · exact ⟨rfl, fun u h => Act.noConfusion h⟩
    · exact scrapePhase_core orc _ ([], []) (by intro a ha; simp at ha) a h

theorem extractStep_acts (orc : Oracle) (smap : List (String × String))
    (acc : List Act × String × List String) (d : Doc)
    (hacc : ∀ a ∈ acc.1, isPassive a = true) :
    ∀ a ∈ (extractStep orc smap acc d).1, isPassive a = true := by
  intro a ha
  unfold extractStep at ha
  repeat' split at ha
  all_goals
    first
      | exact hacc a ha
      | (simp at ha
         rcases ha with h | rfl | rfl
         · exact hacc a h
         · rfl
         · rfl)
      | (simp at ha
         rcases ha with h | rfl
         · exact hacc a h
         · rfl)

theorem extractLoop_acts (orc : Oracle) (smap : List (String × String)) (docs : List Doc) :
    ∀ a ∈ (extractLoop orc smap docs).1, isPassive a = true := by
  suffices h : ∀ (l : List Doc) (acc : List Act × String × List String),
      (∀ a ∈ acc.1, isPassive a = true) →
      ∀ a ∈ (l.foldl (extractStep orc smap) acc).1, isPassive a = true by
    exact h docs ([], "", []) (by intro a ha; simp at ha)
  intro l
  induction l with
  | nil => intro acc hacc; exact hacc
  | cons d rest ih =>
    intro acc hacc
    exact ih _ (extractStep_acts orc smap acc d hacc)

theorem sep_head (n m : String) : (sep n m).data.head? = some '\n' := by
  show ((("\n\n--- " ++ n) ++ " ---\n\n") ++ m).data.head? = some '\n'
  rw [String.data_append, String.data_append, String.data_append]
  rfl

theorem headOk_append_sep (cm n m : String) (h : headOk cm) : headOk (cm ++ sep n m) := by
  rcases h with rfl | h
  · right
    rw [String.data_append]
    simpa using sep_head n m
  · right
    have hne : cm.data ≠ [] := by
      intro hn
      rw [hn] at h
      cases h
    rw [String.data_append, List.head?_append_of_ne_nil cm.data hne]
    exact h

theorem extractStep_headOk (orc : Oracle) (smap : List (String × String))
    (acc : List Act × String × List String) (d : Doc) (h : headOk acc.2.1) :
    headOk (extractStep orc smap acc d).2.1 := by
  unfold extractStep
  repeat' split
  all_goals first
    | exact h
    | exact headOk_append_sep _ _ _ h

theorem extractLoop_headOk (orc : Oracle) (smap : List (String × String)) (docs : List Doc) :
    headOk (extractLoop orc smap docs).2.1 := by
  suffices hf : ∀ (l : List Doc) (acc : List Act × String × List String),
      headOk acc.2.1 → headOk (l.foldl (extractStep orc smap) acc).2.1 by
    exact hf docs ([], "", []) (Or.inl rfl)
  intro l
  induction l with
  | nil => intro acc h; exact h
  | cons d rest ih => intro acc h; exact ih _ (extractStep_headOk orc smap acc d h)

theorem extractLoop_ne_sentinel (orc : Oracle) (smap : List (String × String))
    (docs : List Doc) (h : (extractLoop orc smap docs).2.1 ≠ "") :
    (extractLoop orc smap docs).2.1 ≠ PROCESSING_SENTINEL := by
  rcases extractLoop_headOk orc smap docs with he | hh
  · exact absurd he h
  · intro hs
    rw [hs] at hh
    exact absurd hh (by decide)

/-! The three post-merge branches of the generation stage. -/

theorem genPhase_noOutput (sched : List Bool) (fmt bt : GenOutcome) (cm : String)
    (imgs : List String) (h : jsTrim (concatAll fmt.chunks) = "") :
    genPhase sched fmt bt cm imgs =
      (Act.emit (.statusEv "Summarizing and restructuring...") ::
        (mergeBy sched (fmtEvents fmt) (btEvents bt)).map Act.emit) ++
      [.emit (.errorEv "Failed to generate summary. Please try again."), .emit .doneEv] := by
  simp only [genPhase]
  rw [if_pos h]

theorem genPhase_canned (sched : List Bool) (fmt bt : GenOutcome) (cm : String)
    (imgs : List String) (h1 : jsTrim (concatAll fmt.chunks) ≠ "")
    (h2 : strIncludes (jsTrim (concatAll fmt.chunks)) cannedPhrase = true) :
    genPhase sched fmt bt cm imgs =
      (Act.emit (.statusEv "Summarizing and restructuring...") ::
        (mergeBy sched (fmtEvents fmt) (btEvents bt)).map Act.emit) ++
      [.dbw .resetPlain, .emit (.errorEv (jsTrim (concatAll fmt.chunks))), .emit .doneEv] := by
  simp only [genPhase]
  rw [if_neg h1, if_pos h2]

theorem genPhase_success (sched : List Bool) (fmt bt : GenOutcome) (cm : String)
    (imgs : List String) (h1 : jsTrim (concatAll fmt.chunks) ≠ "")
    (h2 : strIncludes (jsTrim (concatAll fmt.chunks)) cannedPhrase = false) :
    genPhase sched fmt bt cm imgs =
      (Act.emit (.statusEv "Summarizing and restructuring...") ::
        (mergeBy sched (fmtEvents fmt) (btEvents bt)).map Act.emit) ++
      [.dbw (.persistOutputs (jsTrim (concatAll fmt.chunks))
        (if strIncludes (jsTrim (concatAll bt.chunks)) cannedPhrase then ""
          else jsTrim (concatAll bt.chunks))
        (imgs.filter fun i =>
          strIncludes (jsTrim (concatAll fmt.chunks)) i ||
          strIncludes (if strIncludes (jsTrim (concatAll bt.chunks)) cannedPhrase then ""
            else jsTrim (concatAll bt.chunks)) i)),
       .emit .doneEv] := by
  simp only [genPhase]
  rw [if_neg h1, if_neg (by rw [h2]; exact Bool.false_ne_true)]

theorem applyActs_gen_base (sched : List Bool) (fmt bt : GenOutcome) (r : Row) :
    applyActs (Act.emit (.statusEv "Summarizing and restructuring...") ::
      (mergeBy sched (fmtEvents fmt) (btEvents bt)).map Act.emit) r = r := by
  refine applyActs_passive _ r ?_
  intro a ha
  rcases List.mem_cons.mp ha with rfl | h
  · rfl
  · exact passive_map_emit _ a h

theorem collabCalls_gen_base (sched : List Bool) (fmt bt : GenOutcome) :
    collabCalls (Act.emit (.statusEv "Summarizing and restructuring...") ::
      (mergeBy sched (fmtEvents fmt) (btEvents bt)).map Act.emit) = [] := by
  show collabCalls ([Act.emit (.statusEv "Summarizing and restructuring...")] ++
    (mergeBy sched (fmtEvents fmt) (btEvents bt)).map Act.emit) = []
  rw [collabCalls_append, collabCalls_map_emit]
  rfl

theorem collabCalls_genPhase (sched : List Bool) (fmt bt : GenOutcome) (cm : String)
    (imgs : List String) : collabCalls (genPhase sched fmt bt cm imgs) = [] := by
  simp only [genPhase]
  repeat' split
  all_goals (rw [collabCalls_append, collabCalls_gen_base]; rfl)

/-! Branch lemmas for the route handler. -/

theorem routeActs_replay (orc : Oracle) (sched : List Bool) (fmt bt : GenOutcome)
    (docs : List Doc) (result db0 : Row) (h : result.outputContent ≠ "") :
    routeActs orc sched fmt bt docs result db0 =
      [.emit (.statusEv "Complete"),
       .emit (.contentEv result.outputContent),
       .emit (.breadtextEv result.outputBreadtext),
       .emit (.imagesEv result.outputImages),
       .emit .doneEv] := by
  unfold routeActs
  rw [if_pos h]

theorem routeActs_already (orc : Oracle) (sched : List Bool) (fmt bt : GenOutcome)
    (docs : List Doc) (result db0 : Row) (h0 : result.outputContent = "")
    (hdb : db0.markdownContent ≠ "") (hpre : result.markdownContent = "") :
    routeActs orc sched fmt bt docs result db0 =
      [.dbw .claimW,
       .emit (.statusEv "Already processing in another request. Please wait..."),
       .emit .doneEv] := by
  unfold routeActs
  rw [if_neg (not_ne_iff.mpr h0), if_pos ⟨hdb, hpre⟩]

theorem routeActs_process (orc : Oracle) (sched : List Bool) (fmt bt : GenOutcome)
    (docs : List Doc) (result db0 : Row) (h0 : result.outputContent = "")
    (h : db0.markdownContent = "" ∨ result.markdownContent ≠ "") :
    routeActs orc sched fmt bt docs result db0 =
      Act.dbw .claimW :: processPhase orc sched fmt bt docs result := by
  unfold routeActs
  rw [if_neg (not_ne_iff.mpr h0), if_neg]
  rintro ⟨hdb, hpre⟩
  rcases h with h | h
  · exact hdb h
  · exact h hpre

theorem processPhase_resume (orc : Oracle) (sched : List Bool) (fmt bt : GenOutcome)
    (docs : List Doc) (result : Row) (h1 : result.markdownContent ≠ "")
    (h2 : result.markdownContent ≠ PROCESSING_SENTINEL) :
    processPhase orc sched fmt bt docs result =
      genPhase sched fmt bt result.markdownContent result.extractedImages := by
  simp only [processPhase]
  rw [if_neg h2, if_neg h1]

theorem processPhase_fresh_empty (orc : Oracle) (sched : List Bool) (fmt bt : GenOutcome)
    (docs : List Doc) (result : Row) (h2 : result.markdownContent = "")
    (hc : jsTrim (stripSeps (extractLoop orc (scrapePhase orc docs).2 docs).2.1) = "") :
    processPhase orc sched fmt bt docs result =
      ((scrapePhase orc docs).1 ++ Act.emit (.statusEv "Extracting text and images...") ::
        (extractLoop orc (scrapePhase orc docs).2 docs).1) ++
      [.dbw .resetPlain,
       .emit (.errorEv "No content could be extracted from the documents. The file may be empty or unreadable."),
       .emit .doneEv] := by
  simp only [processPhase, h2, ite_self]
  rw [if_pos trivial, if_pos hc]

theorem processPhase_fresh_content (orc : Oracle) (sched : List Bool) (fmt bt : GenOutcome)
    (docs : List Doc) (result : Row) (h2 : result.markdownContent = "")
    (hc : jsTrim (stripSeps (extractLoop orc (scrapePhase orc docs).2 docs).2.1) ≠ "") :
    processPhase orc sched fmt bt docs result =
      ((scrapePhase orc docs).1 ++ Act.emit (.statusEv "Extracting text and images...") ::
        (extractLoop orc (scrapePhase orc docs).2 docs).1) ++
      Act.dbw (.persistExtract (extractLoop orc (scrapePhase orc docs).2 docs).2.1
          (extractLoop orc (scrapePhase orc docs).2 docs).2.2) ::
        genPhase sched fmt bt (extractLoop orc (scrapePhase orc docs).2 docs).2.1
          (extractLoop orc (scrapePhase orc docs).2 docs).2.2 := by
  simp only [processPhase, h2, ite_self]
  rw [if_pos trivial, if_neg hc]

theorem extract_pre_passive (orc : Oracle) (docs : List Doc) :
    ∀ a ∈ (scrapePhase orc docs).1 ++
      Act.emit (.statusEv "Extracting text and images...") ::
        (extractLoop orc (scrapePhase orc docs).2 docs).1, isPassive a = true := by
  intro a ha
  rcases List.mem_append.mp ha with h | h
  · exact (scrapePhase_acts orc docs a h).1
  · rcases List.mem_cons.mp h with rfl | h
    · rfl
    · exact extractLoop_acts orc _ docs a h

theorem actEvents_cons_dbw (w : DbWrite) (l : List Act) :
    actEvents (Act.dbw w :: l) = actEvents l := rfl

theorem actEvents_cons_emit (e : Ev) (l : List Act) :
    actEvents (Act.emit e :: l) = e :: actEvents l := rfl

/-- C1 (counterexample): a connection whose claim attempt fails while the row
holds the sentinel — another worker is mid-extraction — but whose earlier
snapshot already saw the sentinel is NOT routed to the informational
status/done short circuit: it falls into the processing path (the sentinel is
mapped back to empty markdown at `route.ts` line 137) and performs extraction,
here an OCR collaborator call. -/
theorem claim1_counterexample :
    rowSentinel.markdownContent = PROCESSING_SENTINEL ∧
    (tryClaim rowSentinel.markdownContent).2 = false ∧
    collabCalls (routeActs okOracle [] genOk genOk [fileDoc] rowSentinel rowSentinel) =
      [Act.ocrCall "blob://1"] := by
  refine ⟨rfl, by decide, by decide⟩

/-- C1 (amended): when the claim attempt fails while another worker holds the
row (any non-empty value, in particular the sentinel) AND the handler's own
earlier snapshot saw `extractedText` empty, the handler emits exactly one
informational status event followed by a done event, performs no extraction or
generation collaborator calls, and leaves the row untouched (its only update
is the claim attempt itself, which matched zero rows). -/
theorem claim1_already_processing (orc : Oracle) (sched : List Bool) (fmt bt : GenOutcome)
    (docs : List Doc) (result db0 : Row) (h0 : result.outputContent = "")
    (hdb : db0.markdownContent ≠ "") (hpre : result.markdownContent = "") :
    actEvents (routeActs orc sched fmt bt docs result db0) =
      [.statusEv "Already processing in another request. Please wait...", .doneEv] ∧
    collabCalls (routeActs orc sched fmt bt docs result db0) = [] ∧
    routeFinal orc sched fmt bt docs result db0 = db0 := by
  rw [routeFinal, routeActs_already orc sched fmt bt docs result db0 h0 hdb hpre]
  refine ⟨rfl, rfl, ?_⟩
  simp [applyActs, actApply, applyW, hdb]

/-- C1 (witness): the amended theorem applied to a fresh snapshot racing a
sentinel-holding row. -/
theorem claim1_witness :
    rowFresh.outputContent = "" ∧ rowSentinel.markdownContent ≠ "" ∧
    rowFresh.markdownContent = "" ∧
    (actEvents (routeActs noOracle [] genOk genOk [] rowFresh rowSentinel) =
      [.statusEv "Already processing in another request. Please wait...", .doneEv] ∧
     collabCalls (routeActs noOracle [] genOk genOk [] rowFresh rowSentinel) = [] ∧
     routeFinal noOracle [] genOk genOk [] rowFresh rowSentinel = rowSentinel) :=
  ⟨rfl, by decide, rfl,
   claim1_already_processing noOracle [] genOk genOk [] rowFresh rowSentinel rfl (by decide) rfl⟩

/-- C3 (counterexample): the replay branch emits five events — a `breadtext`
event sits between `content` and `images` — not the four events
`status(complete), content, images, done` the claim states. -/
theorem claim3_counterexample :
    rowDone.outputContent ≠ "" ∧
    actEvents (routeActs noOracle [] genOk genOk [] rowDone rowDone) =
      [.statusEv "Complete", .contentEv "OUT", .breadtextEv "BT", .imagesEv ["i"], .doneEv] ∧
    actEvents (routeActs noOracle [] genOk genOk [] rowDone rowDone) ≠
      [.statusEv "Complete", .contentEv "OUT", .imagesEv ["i"], .doneEv] := by
  refine ⟨by decide, by decide, by decide⟩

/-- C3 (amended): for every job whose `outputContent` is already non-empty
when a client connects, the handler replays exactly the events
`status(complete), content, breadtext, images, done` — re-running no stage and
calling no collaborator — and performs no row writes at all. -/
theorem claim3_replay (orc : Oracle) (sched : List Bool) (fmt bt : GenOutcome)
    (docs : List Doc) (result db0 : Row) (h : result.outputContent ≠ "") :
    actEvents (routeActs orc sched fmt bt docs result db0) =
      [.statusEv "Complete", .contentEv result.outputContent,
       .breadtextEv result.outputBreadtext, .imagesEv result.outputImages, .doneEv] ∧
    collabCalls (routeActs orc sched fmt bt docs result db0) = [] ∧
    routeFinal orc sched fmt bt docs result db0 = db0 := by
  rw [routeFinal, routeActs_replay orc sched fmt bt docs result db0 h]
  exact ⟨rfl, rfl, rfl⟩

/-- C3 (witness): the amended replay theorem at a finished job. -/
theorem claim3_witness :
    rowDone.outputContent ≠ "" ∧
    (actEvents (routeActs noOracle [] genOk genOk [] rowDone rowDone) =
      [.statusEv "Complete", .contentEv rowDone.outputContent,
       .breadtextEv rowDone.outputBreadtext, .imagesEv rowDone.outputImages, .doneEv] ∧
     collabCalls (routeActs noOracle [] genOk genOk [] rowDone rowDone) = [] ∧
     routeFinal noOracle [] genOk genOk [] rowDone rowDone = rowDone) :=
  ⟨by decide, claim3_replay noOracle [] genOk genOk [] rowDone rowDone (by decide)⟩

/-- C5: on a freshly claimed run whose extraction, once separator-stripped,
is only whitespace, the handler ends the stream with the "no content" error
event and a done event, resets `markdownContent` to the empty string, and a
subsequent claim attempt on the job then succeeds. -/
theorem claim5_empty_extraction (orc : Oracle) (sched : List Bool) (fmt bt : GenOutcome)
    (docs : List Doc) (result : Row) (h0 : result.outputContent = "")
    (h2 : result.markdownContent = "")
    (hc : jsTrim (stripSeps (extractLoop orc (scrapePhase orc docs).2 docs).2.1) = "") :
    actEvents (routeActs orc sched fmt bt docs result result) =
      actEvents ((scrapePhase orc docs).1 ++
        Act.emit (.statusEv "Extracting text and images...") ::
          (extractLoop orc (scrapePhase orc docs).2 docs).1) ++
      [.errorEv "No content could be extracted from the documents. The file may be empty or unreadable.",
       .doneEv] ∧
    (routeFinal orc sched fmt bt docs result result).markdownContent = "" ∧
    tryClaim (routeFinal orc sched fmt bt docs result result).markdownContent =
      (PROCESSING_SENTINEL, true) := by
  have hacts := routeActs_process orc sched fmt bt docs result result h0 (Or.inl h2)
  rw [processPhase_fresh_empty orc sched fmt bt docs result h2 hc] at hacts
  have hmd : (routeFinal orc sched fmt bt docs result result).markdownContent = "" := by
    rw [routeFinal, hacts, applyActs_cons, applyActs_append,
      applyActs_passive _ _ (extract_pre_passive orc docs)]
    rfl
  refine ⟨?_, hmd, by rw [hmd]; exact tryClaim_empty⟩
  rw [hacts, actEvents_cons_dbw, actEvents_append]
  rfl

/-- C5 (witness): a job with no usable sources — extraction yields the empty
string — hits the no-content reset path and can be re-claimed. -/
theorem claim5_witness :
    rowFresh.outputContent = "" ∧ rowFresh.markdownContent = "" ∧
    jsTrim (stripSeps (extractLoop noOracle (scrapePhase noOracle []).2 []).2.1) = "" ∧
    (actEvents (routeActs noOracle [] genOk genOk [] rowFresh rowFresh) =
      actEvents ((scrapePhase noOracle []).1 ++
        Act.emit (.statusEv "Extracting text and images...") ::
          (extractLoop noOracle (scrapePhase noOracle []).2 []).1) ++
      [.errorEv "No content could be extracted from the documents. The file may be empty or unreadable.",
       .doneEv] ∧
     (routeFinal noOracle [] genOk genOk [] rowFresh rowFresh).markdownContent = "" ∧
     tryClaim (routeFinal noOracle [] genOk genOk [] rowFresh rowFresh).markdownContent =
       (PROCESSING_SENTINEL, true)) :=
  ⟨rfl, rfl, by decide,
   claim5_empty_extraction noOracle [] genOk genOk [] rowFresh rfl rfl (by decide)⟩

theorem collabCalls_cons_dbw (w : DbWrite) (l : List Act) :
    collabCalls (Act.dbw w :: l) = collabCalls l := rfl

theorem genPhase_events_head (sched : List Bool) (fmt bt : GenOutcome) (cm : String)
    (imgs : List String) :
    ∃ rest, actEvents (genPhase sched fmt bt cm imgs) =
      Ev.statusEv "Summarizing and restructuring..." :: rest := by
  simp only [genPhase]
  repeat' split
  all_goals exact ⟨_, rfl⟩

theorem applyW_claimW_outputContent (r : Row) :
    (applyW .claimW r).outputContent = r.outputContent := by
  simp only [applyW]
  split <;> rfl

/-- C6 (counterexample): a breadtext producer that fails after yielding a
chunk does not leave `breadtextOutput` empty — the chunks received before the
failure are persisted. -/
theorem claim6_counterexample :
    genFailLate.failed = true ∧ genOk.failed = false ∧
    (routeFinal okOracle [] genOk genFailLate [] rowResume rowResume).outputContent = "world" ∧
    (routeFinal okOracle [] genOk genFailLate [] rowResume rowResume).outputBreadtext = "hello" ∧
    ("hello" : String) ≠ "" := by
  refine ⟨rfl, rfl, by decide, by decide, by decide⟩

/-- C6 (amended): in a run reaching the generation stage, a breadtext-producer
failure that precedes any chunk still completes the job — provided the
formatted producer succeeds with trimmed output that is non-empty and not the
canned empty-document response — persisting that output and an empty
`breadtextOutput`; a formatted-producer failure that yielded no chunks ends
the stream with the terminal error and done events and persists nothing.  (In
general a mid-stream breadtext failure persists the chunks received before the
failure, which is what the counterexample exhibits.) -/
theorem claim6_asymmetric_failure (sched : List Bool) (fmt bt : GenOutcome) (cm : String)
    (imgs : List String) (r : Row) :
    (bt.failed = true → bt.chunks = [] → fmt.failed = false →
      jsTrim (concatAll fmt.chunks) ≠ "" →
      strIncludes (jsTrim (concatAll fmt.chunks)) cannedPhrase = false →
      actEvents (genPhase sched fmt bt cm imgs) =
        (Ev.statusEv "Summarizing and restructuring..." ::
          mergeBy sched (fmtEvents fmt) (btEvents bt)) ++ [Ev.doneEv] ∧
      (applyActs (genPhase sched fmt bt cm imgs) r).outputContent =
        jsTrim (concatAll fmt.chunks) ∧
      jsTrim (concatAll fmt.chunks) ≠ "" ∧
      (applyActs (genPhase sched fmt bt cm imgs) r).outputBreadtext = "") ∧
    (fmt.failed = true → fmt.chunks = [] →
      applyActs (genPhase sched fmt bt cm imgs) r = r ∧
      actEvents (genPhase sched fmt bt cm imgs) =
        (Ev.statusEv "Summarizing and restructuring..." ::
          mergeBy sched (fmtEvents fmt) (btEvents bt)) ++
        [Ev.errorEv "Failed to generate summary. Please try again.", Ev.doneEv]) := by
  constructor
  · intro hbtf hbt hff h1 h2
    rw [genPhase_success sched fmt bt cm imgs h1 h2, hbt]
    refine ⟨?_, ?_, h1, ?_⟩
    · rw [actEvents_append, actEvents_cons_emit, actEvents_map_emit]
      rfl
    · rw [applyActs_append, applyActs_gen_base]
      rfl
    · rw [applyActs_append, applyActs_gen_base]
      rfl
  · intro hff hch
    have hf : jsTrim (concatAll fmt.chunks) = "" := by rw [hch]; rfl
    rw [genPhase_noOutput sched fmt bt cm imgs hf]
    constructor
    · rw [applyActs_append, applyActs_gen_base]
      rfl
    · rw [actEvents_append, actEvents_cons_emit, actEvents_map_emit]
      rfl

/-- C6 (witness): the amended theorem's two halves at concrete producers: an
immediately failing breadtext producer with a successful formatted producer,
then an immediately failing formatted producer. -/
theorem claim6_witness :
    (genFailEarly.failed = true ∧ genFailEarly.chunks = [] ∧ genOk.failed = false ∧
     (actEvents (genPhase [] genOk genFailEarly "DOC" []) =
        (Ev.statusEv "Summarizing and restructuring..." ::
          mergeBy [] (fmtEvents genOk) (btEvents genFailEarly)) ++ [Ev.doneEv] ∧
      (applyActs (genPhase [] genOk genFailEarly "DOC" []) rowResume).outputContent =
        jsTrim (concatAll genOk.chunks) ∧
      jsTrim (concatAll genOk.chunks) ≠ "" ∧
      (applyActs (genPhase [] genOk genFailEarly "DOC" []) rowResume).outputBreadtext = "")) ∧
    (applyActs (genPhase [] genFailEarly genOk "DOC" []) rowResume = rowResume ∧
     actEvents (genPhase [] genFailEarly genOk "DOC" []) =
       (Ev.statusEv "Summarizing and restructuring..." ::
         mergeBy [] (fmtEvents genFailEarly) (btEvents genOk)) ++
       [Ev.errorEv "Failed to generate summary. Please try again.", Ev.doneEv]) :=
  ⟨⟨rfl, rfl, rfl,
    (claim6_asymmetric_failure [] genOk genFailEarly "DOC" [] rowResume).1 rfl rfl rfl
      (by decide) (by decide)⟩,
   (claim6_asymmetric_failure [] genFailEarly genOk "DOC" [] rowResume).2 rfl rfl⟩

/-- C7 (counterexample): a job whose `extractedText` is non-empty — it holds
the sentinel — is nevertheless put through extraction: the handler maps the
sentinel back to empty markdown and calls the URL-scraping collaborator. -/
theorem claim7_counterexample :
    rowSentinel.markdownContent ≠ "" ∧
    collabCalls (routeActs okOracle [] genOk genOk [urlDoc] rowSentinel rowSentinel) =
      [Act.scrapeCall "https://ex.com"] := by
  refine ⟨by decide, by decide⟩

/-- C7 (amended): when the stored `markdownContent` is non-empty AND not the
sentinel, processing calls no OCR or scraping collaborator and its first event
is the generation status; and on a fresh run that extracts usable content, the
extracted markdown and images are persisted by a row update placed strictly
before every generation act. -/
theorem claim7_resume_skips_extraction (orc : Oracle) (sched : List Bool) (fmt bt : GenOutcome)
    (docs : List Doc) (result db0 : Row) :
    (result.outputContent = "" → result.markdownContent ≠ "" →
      result.markdownContent ≠ PROCESSING_SENTINEL →
      collabCalls (routeActs orc sched fmt bt docs result db0) = [] ∧
      ∃ rest, actEvents (routeActs orc sched fmt bt docs result db0) =
        Ev.statusEv "Summarizing and restructuring..." :: rest) ∧
    (result.outputContent = "" → result.markdownContent = "" → db0.markdownContent = "" →
      jsTrim (stripSeps (extractLoop orc (scrapePhase orc docs).2 docs).2.1) ≠ "" →
      routeActs orc sched fmt bt docs result db0 =
        (Act.dbw .claimW :: ((scrapePhase orc docs).1 ++
          Act.emit (.statusEv "Extracting text and images...") ::
            (extractLoop orc (scrapePhase orc docs).2 docs).1)) ++
        Act.dbw (.persistExtract (extractLoop orc (scrapePhase orc docs).2 docs).2.1
            (extractLoop orc (scrapePhase orc docs).2 docs).2.2) ::
          genPhase sched fmt bt (extractLoop orc (scrapePhase orc docs).2 docs).2.1
            (extractLoop orc (scrapePhase orc docs).2 docs).2.2) := by
  constructor
  · intro h0 h1 h2
    have hacts := routeActs_process orc sched fmt bt docs result db0 h0 (Or.inr h1)
    rw [processPhase_resume orc sched fmt bt docs result h1 h2] at hacts
    rw [hacts]
    refine ⟨?_, ?_⟩
    · rw [collabCalls_cons_dbw]
      exact collabCalls_genPhase sched fmt bt _ _
    · obtain ⟨rest, hr⟩ :=
        genPhase_events_head sched fmt bt result.markdownContent result.extractedImages
      exact ⟨rest, by rw [actEvents_cons_dbw, hr]⟩
  · intro h0 h2 hdb hc
    have hacts := routeActs_process orc sched fmt bt docs result db0 h0 (Or.inl hdb)
    rw [processPhase_fresh_content orc sched fmt bt docs result h2 hc] at hacts
    rw [hacts]
    rfl

/-- C7 (witness): both halves of the amended theorem at concrete runs: a
resume from completed extraction, and a fresh file-document run. -/
theorem claim7_witness :
    (rowResume.outputContent = "" ∧ rowResume.markdownContent ≠ "" ∧
     rowResume.markdownContent ≠ PROCESSING_SENTINEL ∧
     (collabCalls (routeActs noOracle [] genOk genOk [] rowResume rowResume) = [] ∧
      ∃ rest, actEvents (routeActs noOracle [] genOk genOk [] rowResume rowResume) =
        Ev.statusEv "Summarizing and restructuring..." :: rest)) ∧
    (jsTrim (stripSeps (extractLoop okOracle (scrapePhase okOracle [fileDoc]).2 [fileDoc]).2.1) ≠ "" ∧
     routeActs okOracle [] genOk genOk [fileDoc] rowFresh rowFresh =
       (Act.dbw .claimW :: ((scrapePhase okOracle [fileDoc]).1 ++
         Act.emit (.statusEv "Extracting text and images...") ::
           (extractLoop okOracle (scrapePhase okOracle [fileDoc]).2 [fileDoc]).1)) ++
       Act.dbw (.persistExtract (extractLoop okOracle (scrapePhase okOracle [fileDoc]).2 [fileDoc]).2.1
           (extractLoop okOracle (scrapePhase okOracle [fileDoc]).2 [fileDoc]).2.2) ::
         genPhase [] genOk genOk (extractLoop okOracle (scrapePhase okOracle [fileDoc]).2 [fileDoc]).2.1
           (extractLoop okOracle (scrapePhase okOracle [fileDoc]).2 [fileDoc]).2.2) :=
  ⟨⟨rfl, by decide, by decide,
    (claim7_resume_skips_extraction noOracle [] genOk genOk [] rowResume rowResume).1 rfl
      (by decide) (by decide)⟩,
   ⟨by decide,
    (claim7_resume_skips_extraction okOracle [] genOk genOk [fileDoc] rowFresh rowFresh).2 rfl rfl
      rfl (by decide)⟩⟩

/-- C10: on a fresh run whose extraction succeeds but whose formatted
generation accumulates only emptiness, the handler ends the stream with the
generic failure error and done, leaves `markdownContent` exactly the persisted
extraction — non-empty and not the sentinel — so the empty-string-guarded
claim fails on it, and a subsequent connection skips the collaborators and
goes straight to generation. -/
theorem claim10_failed_generation_keeps_extraction (orc : Oracle) (sched : List Bool)
    (fmt bt : GenOutcome) (docs : List Doc) (result : Row) (orc2 : Oracle)
    (sched2 : List Bool) (fmt2 bt2 : GenOutcome)
    (h0 : result.outputContent = "") (h2 : result.markdownContent = "")
    (hc : jsTrim (stripSeps (extractLoop orc (scrapePhase orc docs).2 docs).2.1) ≠ "")
    (hf : jsTrim (concatAll fmt.chunks) = "") :
    (∃ pre, actEvents (routeActs orc sched fmt bt docs result result) =
      pre ++ [Ev.errorEv "Failed to generate summary. Please try again.", Ev.doneEv]) ∧
    (routeFinal orc sched fmt bt docs result result).markdownContent =
      (extractLoop orc (scrapePhase orc docs).2 docs).2.1 ∧
    (extractLoop orc (scrapePhase orc docs).2 docs).2.1 ≠ "" ∧
    (extractLoop orc (scrapePhase orc docs).2 docs).2.1 ≠ PROCESSING_SENTINEL ∧
    (tryClaim (routeFinal orc sched fmt bt docs result result).markdownContent).2 = false ∧
    collabCalls (routeActs orc2 sched2 fmt2 bt2 docs
      (routeFinal orc sched fmt bt docs result result)
      (routeFinal orc sched fmt bt docs result result)) = [] ∧
    (∃ rest, actEvents (routeActs orc2 sched2 fmt2 bt2 docs
      (routeFinal orc sched fmt bt docs result result)
      (routeFinal orc sched fmt bt docs result result)) =
        Ev.statusEv "Summarizing and restructuring..." :: rest) := by
  have hacts := routeActs_process orc sched fmt bt docs result result h0 (Or.inl h2)
  rw [processPhase_fresh_content orc sched fmt bt docs result h2 hc,
    genPhase_noOutput sched fmt bt _ _ hf] at hacts
  have hne : (extractLoop orc (scrapePhase orc docs).2 docs).2.1 ≠ "" := by
    intro hcm
    exact hc (by rw [hcm]; rfl)
  have hns := extractLoop_ne_sentinel orc (scrapePhase orc docs).2 docs hne
  have hfin : routeFinal orc sched fmt bt docs result result =
      { applyW .claimW result with
        markdownContent := (extractLoop orc (scrapePhase orc docs).2 docs).2.1,
        extractedImages := (extractLoop orc (scrapePhase orc docs).2 docs).2.2 } := by
    rw [routeFinal, hacts, applyActs_cons, applyActs_append,
      applyActs_passive _ _ (extract_pre_passive orc docs), applyActs_cons,
      applyActs_append, applyActs_gen_base]
    rfl
  have hmd : (routeFinal orc sched fmt bt docs result result).markdownContent =
      (extractLoop orc (scrapePhase orc docs).2 docs).2.1 := by rw [hfin]
  have hoc : (routeFinal orc sched fmt bt docs result result).outputContent = "" := by
    rw [hfin]
    show (applyW .claimW result).outputContent = ""
    rw [applyW_claimW_outputContent, h0]
  have hmd' : (routeFinal orc sched fmt bt docs result result).markdownContent ≠ "" := by
    rw [hmd]; exact hne
  have hms' : (routeFinal orc sched fmt bt docs result result).markdownContent ≠
      PROCESSING_SENTINEL := by
    rw [hmd]; exact hns
  have hacts2 := routeActs_process orc2 sched2 fmt2 bt2 docs
    (routeFinal orc sched fmt bt docs result result)
    (routeFinal orc sched fmt bt docs result result) hoc (Or.inr hmd')
  rw [processPhase_resume orc2 sched2 fmt2 bt2 docs _ hmd' hms'] at hacts2
  refine ⟨?_, hmd, hne, hns, ?_, ?_, ?_⟩
  · refine ⟨actEvents ((scrapePhase orc docs).1 ++
      Act.emit (.statusEv "Extracting text and images...") ::
        (extractLoop orc (scrapePhase orc docs).2 docs).1) ++
      (Ev.statusEv "Summarizing and restructuring..." ::
        mergeBy sched (fmtEvents fmt) (btEvents bt)), ?_⟩
    rw [hacts]
    simp only [actEvents_cons_dbw, actEvents_append, actEvents_cons_emit, actEvents_map_emit,
      List.append_assoc, List.cons_append]
    rfl
  · rw [hmd, tryClaim_nonempty _ hne]
  · rw [hacts2, collabCalls_cons_dbw]
    exact collabCalls_genPhase sched2 fmt2 bt2 _ _
  · obtain ⟨rest, hr⟩ := genPhase_events_head sched2 fmt2 bt2
      (routeFinal orc sched fmt bt docs result result).markdownContent
      (routeFinal orc sched fmt bt docs result result).extractedImages
    exact ⟨rest, by rw [hacts2, actEvents_cons_dbw, hr]⟩

/-- C10 (witness): a fresh file run whose formatted producer yields nothing:
the extraction stays cached and the retry goes straight to generation. -/
theorem claim10_witness :
    rowFresh.outputContent = "" ∧ rowFresh.markdownContent = "" ∧
    jsTrim (stripSeps (extractLoop okOracle (scrapePhase okOracle [fileDoc]).2 [fileDoc]).2.1) ≠ "" ∧
    jsTrim (concatAll genNone.chunks) = "" ∧
    ((∃ pre, actEvents (routeActs okOracle [] genNone genOk [fileDoc] rowFresh rowFresh) =
       pre ++ [Ev.errorEv "Failed to generate summary. Please try again.", Ev.doneEv]) ∧
     (routeFinal okOracle [] genNone genOk [fileDoc] rowFresh rowFresh).markdownContent =
       (extractLoop okOracle (scrapePhase okOracle [fileDoc]).2 [fileDoc]).2.1 ∧
     (extractLoop okOracle (scrapePhase okOracle [fileDoc]).2 [fileDoc]).2.1 ≠ "" ∧
     (extractLoop okOracle (scrapePhase okOracle [fileDoc]).2 [fileDoc]).2.1 ≠ PROCESSING_SENTINEL ∧
     (tryClaim (routeFinal okOracle [] genNone genOk [fileDoc] rowFresh rowFresh).markdownContent).2 = false ∧
     collabCalls (routeActs noOracle [] genOk genOk [fileDoc]
       (routeFinal okOracle [] genNone genOk [fileDoc] rowFresh rowFresh)
       (routeFinal okOracle [] genNone genOk [fileDoc] rowFresh rowFresh)) = [] ∧
     (∃ rest, actEvents (routeActs noOracle [] genOk genOk [fileDoc]
       (routeFinal okOracle [] genNone genOk [fileDoc] rowFresh rowFresh)
       (routeFinal okOracle [] genNone genOk [fileDoc] rowFresh rowFresh)) =
         Ev.statusEv "Summarizing and restructuring..." :: rest)) :=
  ⟨rfl, rfl, by decide, rfl,
   claim10_failed_generation_keeps_extraction okOracle [] genNone genOk [fileDoc] rowFresh
     noOracle [] genOk genOk rfl rfl (by decide) rfl⟩

/-- C8 (counterexample): the canned-response reset the pipeline performs is
the unconditional `resetPlain` (its `where` clause names only the row id):
it appears in a real trace, and applied to a row not holding the sentinel it
still clobbers the field — so not every release is guarded on the sentinel. -/
theorem claim8_counterexample :
    Act.dbw .resetPlain ∈ routeActs noOracle [] genCanned genNone [] rowResume rowResume ∧
    rowResume.markdownContent ≠ PROCESSING_SENTINEL ∧
    applyW .resetPlain rowResume ≠ rowResume := by
  refine ⟨by decide, by decide, by decide⟩

/-- C8 (amended): only the top-level catch release (`route.ts` lines 349-357,
`resetGuarded`) is a conditional update guarded on the field still holding the
sentinel: on any row not holding the sentinel it is a no-op, and on the
sentinel it resets the field to empty.  The empty-extraction and
canned-response resets (lines 199-202 and 313-316) are unconditional. -/
theorem claim8_guarded_release (r : Row) :
    (r.markdownContent ≠ PROCESSING_SENTINEL → applyW .resetGuarded r = r) ∧
    (r.markdownContent = PROCESSING_SENTINEL →
      (applyW .resetGuarded r).markdownContent = "") := by
  constructor
  · intro h
    simp only [applyW]
    rw [if_neg h]
  · intro h
    simp only [applyW]
    rw [if_pos h]

/-- C8 (witness): the guarded release at a row holding a complete value and at
a row holding the sentinel. -/
theorem claim8_witness :
    (rowResume.markdownContent ≠ PROCESSING_SENTINEL ∧
     applyW .resetGuarded rowResume = rowResume) ∧
    (rowSentinel.markdownContent = PROCESSING_SENTINEL ∧
     (applyW .resetGuarded rowSentinel).markdownContent = "") :=
  ⟨⟨by decide, (claim8_guarded_release rowResume).1 (by decide)⟩,
   ⟨rfl, (claim8_guarded_release rowSentinel).2 rfl⟩⟩

theorem mdSafe_claimW : mdSafe .claimW := by
  intro r h
  by_cases hc : r.markdownContent = ""
  · exact Or.inl hc
  · simp only [applyW] at h
    rw [if_neg hc] at h
    exact Or.inr h

theorem mdSafe_resetPlain : mdSafe .resetPlain := by
  intro r h
  have h' : ("" : String) = PROCESSING_SENTINEL := h
  exact absurd h' (by decide)

theorem mdSafe_persistOutputs (oc ob : String) (oi : List String) :
    mdSafe (.persistOutputs oc ob oi) := by
  intro r h
  exact Or.inr h

theorem mdSafe_resetGuarded : mdSafe .resetGuarded := by
  intro r h
  by_cases hc : r.markdownContent = PROCESSING_SENTINEL
  · exact Or.inr hc
  · simp only [applyW] at h
    rw [if_neg hc] at h
    exact Or.inr h

theorem mdSafe_persistExtract (md : String) (imgs : List String)
    (h : md ≠ PROCESSING_SENTINEL) : mdSafe (.persistExtract md imgs) := by
  intro r hr
  have hr' : md = PROCESSING_SENTINEL := hr
  exact absurd hr' h

theorem genPhase_writes (sched : List Bool) (fmt bt : GenOutcome) (cm : String)
    (imgs : List String) :
    ∀ a ∈ genPhase sched fmt bt cm imgs, ∀ w, a = Act.dbw w → mdSafe w := by
  intro a ha w hw
  subst hw
  simp only [genPhase] at ha
  repeat' split at ha
  all_goals (
    rcases List.mem_append.mp ha with h | h
    · exfalso
      rcases List.mem_cons.mp h with heq | h
      · exact Act.noConfusion heq
      · rcases List.mem_map.mp h with ⟨e, _, heq⟩
        exact Act.noConfusion heq
    · simp at h
      all_goals first
        | (subst h; exact mdSafe_resetPlain)
        | (subst h; exact mdSafe_persistOutputs _ _ _))

theorem processPhase_writes (orc : Oracle) (sched : List Bool) (fmt bt : GenOutcome)
    (docs : List Doc) (result : Row) :
    ∀ a ∈ processPhase orc sched fmt bt docs result, ∀ w, a = Act.dbw w → mdSafe w := by
  intro a ha w hw
  subst hw
  simp only [processPhase] at ha
  by_cases hcm : (if result.markdownContent = PROCESSING_SENTINEL then ""
      else result.markdownContent) = ""
  · rw [if_pos hcm] at ha
    by_cases hc : jsTrim (stripSeps (extractLoop orc (scrapePhase orc docs).2 docs).2.1) = ""
    · rw [if_pos hc] at ha
      rcases List.mem_append.mp ha with h | h
      · have hp := extract_pre_passive orc docs _ h
        simp [isPassive] at hp
      · simp at h
        subst h
        exact mdSafe_resetPlain
    · rw [if_neg hc] at ha
      rcases List.mem_append.mp ha with h | h
      · have hp := extract_pre_passive orc docs _ h
        simp [isPassive] at hp
      · rcases List.mem_cons.mp h with heq | h
        · cases heq
          refine mdSafe_persistExtract _ _ ?_
          apply extractLoop_ne_sentinel
          intro hcm2
          exact hc (by rw [hcm2]; rfl)
        · exact genPhase_writes sched fmt bt _ _ _ h w rfl
  · rw [if_neg hcm] at ha
    exact genPhase_writes sched fmt bt _ _ _ ha w rfl

theorem routeActs_writes (orc : Oracle) (sched : List Bool) (fmt bt : GenOutcome)
    (docs : List Doc) (result db0 : Row) :
    ∀ a ∈ routeActs orc sched fmt bt docs result db0, ∀ w, a = Act.dbw w → mdSafe w := by
  intro a ha w hw
  subst hw
  unfold routeActs at ha
  split at ha
  · simp at ha
  · split at ha
    · simp at ha
      subst ha
      exact mdSafe_claimW
    · rcases List.mem_cons.mp ha with heq | h
      · cases heq
        exact mdSafe_claimW
      · exact processPhase_writes orc sched fmt bt docs result _ h w rfl

/-- C9 (counterexample): the canned-response reset takes `markdownContent`
from a complete value back to the empty string in a plain single-worker run —
the transition complete → empty, which the claimed transition system
excludes. -/
theorem claim9_counterexample :
    rowResume.markdownContent = "DOC" ∧ ("DOC" : String) ≠ "" ∧
    ("DOC" : String) ≠ PROCESSING_SENTINEL ∧
    (routeFinal noOracle [] genCanned genNone [] rowResume rowResume).markdownContent = "" := by
  refine ⟨rfl, by decide, by decide, by decide⟩

/-- C9 (amended): the forward half of the claimed invariant holds — every row
update the handler's trace can contain writes the sentinel into
`markdownContent` only over an empty (or already-sentinel) value, so no
reachable write regresses a complete value to the sentinel; the reverse half
fails, since the canned-response and empty-extraction resets take a complete
value back to empty (the counterexample). -/
theorem claim9_sentinel_only_from_empty (orc : Oracle) (sched : List Bool) (fmt bt : GenOutcome)
    (docs : List Doc) (result db0 : Row) (w : DbWrite) (r : Row)
    (hw : Act.dbw w ∈ routeActs orc sched fmt bt docs result db0)
    (hpost : (applyW w r).markdownContent = PROCESSING_SENTINEL) :
    r.markdownContent = "" ∨ r.markdownContent = PROCESSING_SENTINEL :=
  routeActs_writes orc sched fmt bt docs result db0 _ hw w rfl r hpost

/-- C9 (witness): the claim update of an already-processing run, applied to a
fresh row, writes the sentinel and indeed started from empty. -/
theorem claim9_witness :
    Act.dbw DbWrite.claimW ∈ routeActs noOracle [] genOk genOk [] rowFresh rowSentinel ∧
    (applyW .claimW rowFresh).markdownContent = PROCESSING_SENTINEL ∧
    (rowFresh.markdownContent = "" ∨ rowFresh.markdownContent = PROCESSING_SENTINEL) :=
  ⟨by decide, by decide,
   claim9_sentinel_only_from_empty noOracle [] genOk genOk [] rowFresh rowSentinel .claimW
     rowFresh (by decide) (by decide)⟩

/-- C2: for a fresh job (`markdownContent = ""`), any serialisation of N ≥ 1
concurrent claim updates produces exactly one success (affected count one) and
N−1 failures (affected count zero): only one worker proceeds. -/
theorem claim2_at_most_one_claim (n : Nat) (h : 1 ≤ n) :
    ((runClaims n "").2.count true = 1) ∧ ((runClaims n "").2.count false = n - 1) := by
  obtain ⟨k, rfl⟩ : ∃ k, n = k + 1 := ⟨n - 1, (Nat.succ_pred_eq_of_pos h).symm⟩
  rw [runClaims_fresh k]
  constructor
  · simp [List.count_cons, List.count_replicate]
  · simp [List.count_cons, List.count_replicate]

theorem claim2_witness :
    1 ≤ 3 ∧ ((runClaims 3 "").2.count true = 1) ∧ ((runClaims 3 "").2.count false = 3 - 1) :=
  ⟨by decide, claim2_at_most_one_claim 3 (by decide)⟩

end ElasticDocument
